import Mathlib

/-!
Shallow embedding of `src/DCGAN_CIFAR10/model.py` (a TensorFlow DCGAN model
definition) and proofs about it.

The file has two layers:

* a shape-level embedding: each graph-construction function is modelled by a
  computable function from the static shapes of its tensor arguments to the
  static shape of its output, returning `Except` to model construction-time
  failures (the generator's `assert`, and the host framework's static shape
  checks for convolutions, matrix multiplication and reshape).  Alongside the
  output shape, each model builder records a trace of the layer blocks it
  created, so that architectural statements (which blocks are transposed
  convolutions, which skip batch normalization, channel counts, bias lengths)
  can be stated and proved.

* a value-level embedding over `ℝ`: the forward computation of each block is
  modelled index-wise on real-valued tensors (floating point is out of scope;
  the real numbers are the idealised semantics).  Batch-normalization state
  (the exponential moving averages kept by `tf.train.ExponentialMovingAverage`)
  is threaded explicitly, so that train/inference branching and statistics
  updates are visible in the model.
-/

namespace DCGAN

/-- Source constant `STRIDE_1 = [1, 1, 1, 1]`. -/
def STRIDE_1 : List Nat := [1, 1, 1, 1]

/-- Source constant `STRIDE_2 = [1, 2, 2, 1]`. -/
def STRIDE_2 : List Nat := [1, 2, 2, 1]

/-- Output spatial dimension of a TensorFlow convolution with `padding="SAME"`
and stride `s` on an input dimension `n`: `⌈n / s⌉`. -/
def sameOutDim (n s : Nat) : Nat := (n + s - 1) / s

/-- Description of one layer block created by a model builder, recorded so that
architectural claims can be stated.  For a convolution block, `transposed`
says whether `tf.nn.conv2d_transpose` (rather than `tf.nn.conv2d`) was chosen,
`stride` is the spatial stride, `withBN` whether batch normalization was
applied, `biasLen` the length of the `biases` variable, and `outChannels` the
channel count of the block's output tensor. -/
inductive LayerDesc where
  | linearL (withBN : Bool) (inDim outDim : Nat)
  | convL (transposed : Bool) (stride : Nat) (withBN : Bool) (biasLen outChannels : Nat)
  | avgPoolL
  deriving DecidableEq

/-- Shape behaviour of `_bn` (model.py lines 13-51): batch normalization
preserves the shape of `bottom`; it reads the channel dimension
`bottom.get_shape()[-1]` for its `beta`/`gamma` variables, so `bottom` must
have rank at least 1. -/
def bnShape (bottom : List Nat) : Except String (List Nat) :=
  match bottom.getLast? with
  | some _ => .ok bottom
  | none => .error "bn: input must have rank at least 1"

/-- Shape behaviour of `conv2d` (model.py lines 54-78).  `bottom` is the input
shape, `shape` the weight shape, `strides` the stride vector, `top_shape` the
optional output shape (whose presence selects `tf.nn.conv2d_transpose`,
model.py lines 67-70), `with_bn` whether `_bn` is applied first.

For `tf.nn.conv2d` the filter layout is `[kh, kw, in_channels, out_channels]`
and the output spatial dimensions are `⌈h/s⌉ × ⌈w/s⌉` (`padding="SAME"`).
For `tf.nn.conv2d_transpose` the filter layout is
`[kh, kw, out_channels, in_channels]`; the framework checks that the supplied
`top_shape` is compatible, i.e. that a forward SAME convolution of `top_shape`
with the given stride would reproduce `bottom`'s shape.

The bias variable's shape is `[shape[-1]]` for a regular convolution and
`[shape[-2]]` for a transposed one (model.py line 73). -/
def conv2dShape (bottom shape strides : List Nat) (top_shape : Option (List Nat))
    (with_bn : Bool) : Except String (List Nat × LayerDesc) :=
  match (if with_bn then bnShape bottom else .ok bottom) with
  | .error e => .error e
  | .ok bn =>
    match bn, shape, strides, top_shape with
    | [b, h, w, c], [_kh, _kw, s2, s3], [1, sh, sw, 1], some [tb, th, tw, tc] =>
        if c = s3 ∧ tc = s2 ∧ tb = b ∧ sameOutDim th sh = h ∧ sameOutDim tw sw = w then
          .ok ([tb, th, tw, tc], .convL true sh with_bn s2 tc)
        else .error "conv2d_transpose: incompatible shapes"
    | [b, h, w, c], [_kh, _kw, s2, s3], [1, sh, sw, 1], none =>
        if c = s2 then
          .ok ([b, sameOutDim h sh, sameOutDim w sw, s3], .convL false sh with_bn s3 s3)
        else .error "conv2d: input channels incompatible with filter shape"
    | _, _, _, _ => .error "conv2d: rank mismatch"

/-- Shape behaviour of `linear` (model.py lines 82-103): optional batch
normalization, then `tf.matmul(bn, weights)` with `weights` of shape `shape`,
then a bias of shape `[shape[-1]]`. -/
def linearShape (bottom shape : List Nat) (with_bn : Bool) :
    Except String (List Nat × LayerDesc) :=
  match (if with_bn then bnShape bottom else .ok bottom) with
  | .error e => .error e
  | .ok bn =>
    match bn, shape with
    | [b, d], [d2, k] =>
        if d = d2 then .ok ([b, k], .linearL with_bn d2 k)
        else .error "matmul: inner dimensions incompatible"
    | _, _ => .error "matmul: rank mismatch"

/-- Shape behaviour of `tf.reshape(t, target)`: the element counts must agree. -/
def reshapeShape (t target : List Nat) : Except String (List Nat) :=
  if t.foldr (· * ·) 1 = target.foldr (· * ·) 1 then .ok target
  else .error "reshape: element count mismatch"

/-- Shape behaviour of `tf.reduce_mean(t, [1, 2])` on a rank-4 tensor
(model.py line 182): the two spatial axes are averaged away. -/
def reduceMeanShape (t : List Nat) : Except String (List Nat) :=
  match t with
  | [b, _, _, c] => .ok [b, c]
  | _ => .error "reduce_mean: rank mismatch"

/-- Shape behaviour of `generator` (model.py lines 106-155).  The input is a
2-D latent batch of static shape `batch_size × z_len`.  The function first
asserts `side_length % 16 == 0` (model.py line 120), then chains the
`g_proj` linear block (no batch norm), a reshape, the four stride-2
transposed-convolution blocks `g_conv1`..`g_conv4`, and the stride-1 block
`g_conv5`; each `tf.nn.relu` / `tf.nn.tanh` activation preserves shape.
Returns the output shape together with the trace of created layer blocks. -/
def generatorShape (batch_size z_len side_length : Nat) :
    Except String (List Nat × List LayerDesc) :=
  if side_length % 16 = 0 then
    let dim := side_length / 16
    (linearShape [batch_size, z_len] [z_len, dim * dim * 1024] false).bind fun proj =>
    (reshapeShape proj.1 [batch_size, dim, dim, 1024]).bind fun rshp =>
    let dim1 := dim * 2
    (conv2dShape rshp [5, 5, 512, 1024] STRIDE_2
        (some [batch_size, dim1, dim1, 512]) true).bind fun r1 =>
    let dim2 := dim1 * 2
    (conv2dShape r1.1 [5, 5, 256, 512] STRIDE_2
        (some [batch_size, dim2, dim2, 256]) true).bind fun r2 =>
    let dim3 := dim2 * 2
    (conv2dShape r2.1 [5, 5, 128, 256] STRIDE_2
        (some [batch_size, dim3, dim3, 128]) true).bind fun r3 =>
    let dim4 := dim3 * 2
    (conv2dShape r3.1 [5, 5, 64, 128] STRIDE_2
        (some [batch_size, dim4, dim4, 64]) true).bind fun r4 =>
    (conv2dShape r4.1 [3, 3, 3, 64] STRIDE_1
        (some [batch_size, dim4, dim4, 3]) true).bind fun r5 =>
    .ok (r5.1, [proj.2, r1.2, r2.2, r3.2, r4.2, r5.2])
  else .error "image side length must be divisible by 16"

/-- Shape behaviour of `discriminator` (model.py lines 158-189): the four
stride-2 convolution blocks `d_conv1`..`d_conv4` (the first skipping batch
norm), spatial average pooling, and the `d_classifier` linear block (no batch
norm). -/
def discriminatorShape (data : List Nat) : Except String (List Nat × List LayerDesc) :=
  (conv2dShape data [5, 5, 3, 128] STRIDE_2 none false).bind fun r1 =>
  (conv2dShape r1.1 [5, 5, 128, 256] STRIDE_2 none true).bind fun r2 =>
  (conv2dShape r2.1 [5, 5, 256, 512] STRIDE_2 none true).bind fun r3 =>
  (conv2dShape r3.1 [5, 5, 512, 1024] STRIDE_2 none true).bind fun r4 =>
  (reduceMeanShape r4.1).bind fun pool =>
  (linearShape pool [1024, 1] false).bind fun cls =>
  .ok (cls.1, [r1.2, r2.2, r3.2, r4.2, .avgPoolL, cls.2])

/-- The layer-block trace the generator actually creates, for latent length
`z` and projected spatial dimension `dim = side_length / 16`: one linear block
without batch norm, then five convolution blocks, all of them transposed
(every `conv2d` call in `generator` supplies a `top_shape`), the first four
with stride 2 and the last with stride 1 and 3 output channels. -/
def genLayers (z dim : Nat) : List LayerDesc :=
  [.linearL false z (dim * dim * 1024),
   .convL true 2 true 512 512,
   .convL true 2 true 256 256,
   .convL true 2 true 128 128,
   .convL true 2 true 64 64,
   .convL true 1 true 3 3]

/-- The layer-block trace the discriminator actually creates: four stride-2
regular convolutions with channel counts 128, 256, 512, 1024 (the first
skipping batch norm), average pooling, and a linear block `[1024, 1]` without
batch norm. -/
def discLayers : List LayerDesc :=
  [.convL false 2 false 128 128,
   .convL false 2 true 256 256,
   .convL false 2 true 512 512,
   .convL false 2 true 1024 1024,
   .avgPoolL,
   .linearL false 1024 1]

/-- Feeding the generator's output shape straight into the discriminator
(`discriminator(generator(z, is_train, side), is_train)`), shape level. -/
def roundTripShape (batch_size z_len side_length : Nat) : Except String (List Nat) :=
  (generatorShape batch_size z_len side_length).bind fun g =>
  (discriminatorShape g.1).bind fun d =>
  .ok d.1

/-! ### Value-level embedding

Real-valued forward semantics.  A rank-4 tensor is a function from its four
indices (batch, row, column, channel) to `ℝ`; values at out-of-range indices
are irrelevant because every operation only consults indices below the
explicitly passed dimension bounds. -/

noncomputable section ValueSemantics

/-- A rank-4 tensor, indexed batch × row × column × channel. -/
def Tensor4 : Type := Nat → Nat → Nat → Nat → ℝ

/-- A rank-2 tensor, indexed batch × channel. -/
def Tensor2 : Type := Nat → Nat → ℝ

/-- A per-channel vector (parameters and statistics of batch normalization,
biases). -/
def ChannelVec : Type := Nat → ℝ

/-- Sum of `f` over `0, …, n-1`. -/
def sumFin (n : Nat) (f : Nat → ℝ) : ℝ := ∑ i ∈ Finset.range n, f i

/-- The state owned by one `_bn` block: the exponential moving averages of the
batch mean and batch variance kept by `tf.train.ExponentialMovingAverage`
(model.py line 35). -/
structure BNState where
  movMu : ChannelVec
  movVar : ChannelVec

/-- The learned per-channel parameters of one `_bn` block: `beta` (shift,
initialized to 0) and `gamma` (scale, initialized to 1), model.py lines 25-28. -/
structure BNParams where
  beta : ChannelVec
  gamma : ChannelVec

/-- Per-channel mean of a rank-4 tensor over all non-channel axes
(`tf.nn.moments(bottom, [0, 1, 2])`, model.py lines 31-32). -/
def batchMean (b h w : Nat) (x : Tensor4) : ChannelVec :=
  fun c => (sumFin b fun n => sumFin h fun i => sumFin w fun j => x n i j c) / (b * h * w)

/-- Per-channel variance of a rank-4 tensor over all non-channel axes
(`tf.nn.moments(bottom, [0, 1, 2])`, model.py lines 31-32). -/
def batchVar (b h w : Nat) (x : Tensor4) : ChannelVec :=
  fun c => (sumFin b fun n => sumFin h fun i => sumFin w fun j =>
      (x n i j c - batchMean b h w x c) ^ 2) / (b * h * w)

/-- One update of `tf.train.ExponentialMovingAverage(decay).apply([mu, var])`:
each moving average is blended as `decay * old + (1 - decay) * new`. -/
def emaApply (decay : ℝ) (st : BNState) (mu v : ChannelVec) : BNState :=
  ⟨fun c => decay * st.movMu c + (1 - decay) * mu c,
   fun c => decay * st.movVar c + (1 - decay) * v c⟩

/-- `tf.nn.batch_normalization(x, mean, variance, shift, scale, eps)`:
`scale * (x - mean) / sqrt(variance + eps) + shift`, per channel. -/
def batchNormalization (x : Tensor4) (mean variance shift scale : ChannelVec)
    (eps : ℝ) : Tensor4 :=
  fun n i j c => (x n i j c - mean c) / Real.sqrt (variance c + eps) * scale c + shift c

/-- Value semantics of `_bn` (model.py lines 13-51) on a rank-4 tensor with
dimension bounds `b × h × w × _`.  A missing `is_train` flag defaults to
inference (model.py lines 20-21).  `tf.cond(is_train, train_op, test_op)`
selects the batch statistics and applies the moving-average update in training
mode (model.py lines 37-47), and reads the stored moving averages, leaving
them unchanged, in inference mode.  The epsilon is `1e-4` (model.py line 49).
Returns the normalized tensor and the block's new moving-average state. -/
def bnValue (b h w : Nat) (bottom : Tensor4) (p : BNParams) (st : BNState)
    (is_train : Option Bool) : Tensor4 × BNState :=
  let tr := is_train.getD false
  let mu := batchMean b h w bottom
  let v := batchVar b h w bottom
  let mean := if tr then mu else st.movMu
  let variance := if tr then v else st.movVar
  let st' := if tr then emaApply (9 / 10) st mu v else st
  (batchNormalization bottom mean variance p.beta p.gamma (1 / 10000), st')

/-- Per-channel mean of a rank-2 tensor over the batch axis
(`tf.nn.moments` with axes `[0]`, as `_bn` computes on a rank-2 input). -/
def batchMean2 (b : Nat) (x : Tensor2) : ChannelVec :=
  fun c => (sumFin b fun n => x n c) / b

/-- Per-channel variance of a rank-2 tensor over the batch axis. -/
def batchVar2 (b : Nat) (x : Tensor2) : ChannelVec :=
  fun c => (sumFin b fun n => (x n c - batchMean2 b x c) ^ 2) / b

/-- `tf.nn.batch_normalization` on a rank-2 tensor. -/
def batchNormalization2 (x : Tensor2) (mean variance shift scale : ChannelVec)
    (eps : ℝ) : Tensor2 :=
  fun n c => (x n c - mean c) / Real.sqrt (variance c + eps) * scale c + shift c

/-- Value semantics of `_bn` on a rank-2 tensor with batch bound `b`
(the `linear` block applies `_bn` to its 2-D input when `with_bn` is set). -/
def bnValue2 (b : Nat) (bottom : Tensor2) (p : BNParams) (st : BNState)
    (is_train : Option Bool) : Tensor2 × BNState :=
  let tr := is_train.getD false
  let mu := batchMean2 b bottom
  let v := batchVar2 b bottom
  let mean := if tr then mu else st.movMu
  let variance := if tr then v else st.movVar
  let st' := if tr then emaApply (9 / 10) st mu v else st
  (batchNormalization2 bottom mean variance p.beta p.gamma (1 / 10000), st')

/-- `tf.nn.conv2d(x, wgt, [1, sh, sw, 1], padding="SAME")` on an input of
spatial size `h × w` with `cin` input channels and filter layout
`[kh, kw, in_channels, out_channels]`.  SAME padding pads the input with
zeros by `pad_along / 2` at the top/left where
`pad_along = max((⌈n/s⌉ - 1) * s + k - n, 0)` (truncated `Nat` subtraction
realises the `max` with 0). -/
def convValue (h w kh kw cin sh sw : Nat) (x : Tensor4) (wgt : Tensor4) : Tensor4 :=
  let padT := ((sameOutDim h sh - 1) * sh + kh - h) / 2
  let padL := ((sameOutDim w sw - 1) * sw + kw - w) / 2
  fun n y z co =>
    sumFin kh fun di => sumFin kw fun dj => sumFin cin fun ci =>
      if padT ≤ y * sh + di ∧ y * sh + di - padT < h ∧
         padL ≤ z * sw + dj ∧ z * sw + dj - padL < w then
        x n (y * sh + di - padT) (z * sw + dj - padL) ci * wgt di dj ci co
      else 0

/-- `tf.nn.conv2d_transpose(x, wgt, output_shape, [1, sh, sw, 1],
padding="SAME")` on an input of spatial size `h × w` with `cin` input
channels, filter layout `[kh, kw, out_channels, in_channels]` and requested
output spatial size `outH × outW`: the gradient of the corresponding forward
SAME convolution mapping `outH × outW` to `h × w`, so output position
`(y, z)` accumulates `x n i j ci * wgt di dj co ci` exactly when the forward
convolution would have read `(y, z)` at input position `(i, j)` and filter
offset `(di, dj)`. -/
def convTransposeValue (h w kh kw cin sh sw outH outW : Nat)
    (x : Tensor4) (wgt : Tensor4) : Tensor4 :=
  let padT := ((h - 1) * sh + kh - outH) / 2
  let padL := ((w - 1) * sw + kw - outW) / 2
  fun n y z co =>
    sumFin h fun i => sumFin w fun j =>
      sumFin kh fun di => sumFin kw fun dj => sumFin cin fun ci =>
        if y + padT = i * sh + di ∧ z + padL = j * sw + dj then
          x n i j ci * wgt di dj co ci
        else 0

/-- `tf.nn.bias_add` on a rank-4 tensor. -/
def biasAdd4 (t : Tensor4) (bias : ChannelVec) : Tensor4 :=
  fun n i j c => t n i j c + bias c

/-- `tf.nn.bias_add` on a rank-2 tensor. -/
def biasAdd2 (t : Tensor2) (bias : ChannelVec) : Tensor2 :=
  fun n c => t n c + bias c

/-- `tf.nn.relu` on a rank-4 tensor: elementwise `max(x, 0)`. -/
def relu4 (t : Tensor4) : Tensor4 := fun n i j c => max (t n i j c) 0

/-- `tf.nn.relu` on a rank-2 tensor. -/
def relu2 (t : Tensor2) : Tensor2 := fun n c => max (t n c) 0

/-- `tf.nn.tanh` on a rank-4 tensor: elementwise hyperbolic tangent. -/
def tanh4 (t : Tensor4) : Tensor4 := fun n i j c => Real.tanh (t n i j c)

/-- `tf.matmul(x, w)` with inner dimension `d`. -/
def matmulValue (d : Nat) (x w : Tensor2) : Tensor2 :=
  fun n j => sumFin d fun t => x n t * w t j

/-- `tf.reduce_mean(t, [1, 2])` on a rank-4 tensor of spatial size `h × w`. -/
def reduceMean12 (h w : Nat) (t : Tensor4) : Tensor2 :=
  fun n c => (sumFin h fun i => sumFin w fun j => t n i j c) / (h * w)

/-- `tf.reshape(t, [batch, dim, dim, chan])` of a rank-2 tensor of shape
`[batch, dim * dim * chan]`, row-major. -/
def reshape4 (dim chan : Nat) (t : Tensor2) : Tensor4 :=
  fun n i j c => t n ((i * dim + j) * chan + c)

/-- The variables owned by one `conv2d` block: the `_bn` scale/shift (used
only when `with_bn` is set), the filter `weights`, and the `biases`. -/
structure ConvParams where
  bn : BNParams
  weights : Tensor4
  biases : ChannelVec

/-- The variables owned by one `linear` block. -/
structure LinParams where
  bn : BNParams
  weights : Tensor2
  biases : ChannelVec

/-- Value semantics of `conv2d` (model.py lines 54-78) on an input with
dimension bounds `b × h × w × _`.  `kh kw s2 s3` are the four components of
the weight-shape argument; `top_shape = some (th, tw)` records the spatial
part of the supplied output shape and selects `tf.nn.conv2d_transpose`
(model.py lines 67-70); otherwise `tf.nn.conv2d` is applied.  Batch
normalization, when enabled, is applied to `bottom` before the convolution,
and `tf.nn.bias_add` after it.  Returns the block's output and its
batch-norm state (unchanged when `with_bn` is false). -/
def conv2dValue (b h w : Nat) (bottom : Tensor4) (kh kw s2 s3 sh sw : Nat)
    (top_shape : Option (Nat × Nat)) (with_bn : Bool) (is_train : Option Bool)
    (p : ConvParams) (st : BNState) : Tensor4 × BNState :=
  let bnRes := if with_bn then bnValue b h w bottom p.bn st is_train else (bottom, st)
  let conv := match top_shape with
    | some (th, tw) => convTransposeValue h w kh kw s3 sh sw th tw bnRes.1 p.weights
    | none => convValue h w kh kw s2 sh sw bnRes.1 p.weights
  (biasAdd4 conv p.biases, bnRes.2)

/-- Value semantics of `linear` (model.py lines 82-103) on an input with
batch bound `b` and inner dimension `d`. -/
def linearValue (b d : Nat) (bottom : Tensor2) (with_bn : Bool)
    (is_train : Option Bool) (p : LinParams) (st : BNState) : Tensor2 × BNState :=
  let bnRes := if with_bn then bnValue2 b bottom p.bn st is_train else (bottom, st)
  (biasAdd2 (matmulValue d bnRes.1 p.weights) p.biases, bnRes.2)

/-- All variables owned by the generator's six blocks. -/
structure GenParams where
  proj : LinParams
  conv1 : ConvParams
  conv2 : ConvParams
  conv3 : ConvParams
  conv4 : ConvParams
  conv5 : ConvParams

/-- The batch-norm moving-average state of the generator's blocks.  `g_proj`
is built with `with_bn=False`, so its field is never consulted or changed. -/
structure GenState where
  stProj : BNState
  st1 : BNState
  st2 : BNState
  st3 : BNState
  st4 : BNState
  st5 : BNState

/-- Value semantics of `generator` (model.py lines 106-155): the `g_proj`
linear block (no batch norm) under `tf.nn.relu`, a reshape to
`[batch, dim, dim, 1024]`, four stride-2 transposed-convolution blocks under
`tf.nn.relu`, and the stride-1 block `g_conv5` under `tf.nn.tanh`.  All five
convolution calls supply a `top_shape`.  Returns the output tensor and the
new batch-norm state of every block. -/
def generatorValue (batch_size z_len side_length : Nat) (data : Tensor2)
    (is_train : Option Bool) (P : GenParams) (S : GenState) : Tensor4 × GenState :=
  let dim := side_length / 16
  let projRes := linearValue batch_size z_len data false none P.proj S.stProj
  let proj := relu2 projRes.1
  let rshp := reshape4 dim 1024 proj
  let dim1 := dim * 2
  let r1 := conv2dValue batch_size dim dim rshp 5 5 512 1024 2 2
      (some (dim1, dim1)) true is_train P.conv1 S.st1
  let conv1 := relu4 r1.1
  let dim2 := dim1 * 2
  let r2 := conv2dValue batch_size dim1 dim1 conv1 5 5 256 512 2 2
      (some (dim2, dim2)) true is_train P.conv2 S.st2
  let conv2 := relu4 r2.1
  let dim3 := dim2 * 2
  let r3 := conv2dValue batch_size dim2 dim2 conv2 5 5 128 256 2 2
      (some (dim3, dim3)) true is_train P.conv3 S.st3
  let conv3 := relu4 r3.1
  let dim4 := dim3 * 2
  let r4 := conv2dValue batch_size dim3 dim3 conv3 5 5 64 128 2 2
      (some (dim4, dim4)) true is_train P.conv4 S.st4
  let conv4 := relu4 r4.1
  let r5 := conv2dValue batch_size dim4 dim4 conv4 3 3 3 64 1 1
      (some (dim4, dim4)) true is_train P.conv5 S.st5
  let top := tanh4 r5.1
  (top, ⟨projRes.2, r1.2, r2.2, r3.2, r4.2, r5.2⟩)

/-- All variables owned by the discriminator's five blocks. -/
structure DiscParams where
  conv1 : ConvParams
  conv2 : ConvParams
  conv3 : ConvParams
  conv4 : ConvParams
  classifier : LinParams

/-- The batch-norm moving-average state of the discriminator's blocks.
`d_conv1` and `d_classifier` are built with `with_bn=False`, so their fields
are never consulted or changed. -/
structure DiscState where
  st1 : BNState
  st2 : BNState
  st3 : BNState
  st4 : BNState
  stCls : BNState

/-- Value semantics of `discriminator` (model.py lines 158-189) on an input
with dimension bounds `b × h × w × _`: four stride-2 regular convolution
blocks under `tf.nn.relu` (the first without batch norm and, as in the
source, without an `is_train` argument), `tf.reduce_mean` over the spatial
axes, and the `d_classifier` linear block (no batch norm).  Returns the
per-image logits and the new batch-norm state of every block. -/
def discriminatorValue (b h w : Nat) (data : Tensor4) (is_train : Option Bool)
    (P : DiscParams) (S : DiscState) : Tensor2 × DiscState :=
  let r1 := conv2dValue b h w data 5 5 3 128 2 2 none false none P.conv1 S.st1
  let conv1 := relu4 r1.1
  let h1 := sameOutDim h 2
  let w1 := sameOutDim w 2
  let r2 := conv2dValue b h1 w1 conv1 5 5 128 256 2 2 none true is_train P.conv2 S.st2
  let conv2 := relu4 r2.1
  let h2 := sameOutDim h1 2
  let w2 := sameOutDim w1 2
  let r3 := conv2dValue b h2 w2 conv2 5 5 256 512 2 2 none true is_train P.conv3 S.st3
  let conv3 := relu4 r3.1
  let h3 := sameOutDim h2 2
  let w3 := sameOutDim w2 2
  let r4 := conv2dValue b h3 w3 conv3 5 5 512 1024 2 2 none true is_train P.conv4 S.st4
  let conv4 := relu4 r4.1
  let h4 := sameOutDim h3 2
  let w4 := sameOutDim w3 2
  let avg_pool := reduceMean12 h4 w4 conv4
  let cls := linearValue b 1024 avg_pool false none P.classifier S.stCls
  (cls.1, ⟨r1.2, r2.2, r3.2, r4.2, cls.2⟩)

end ValueSemantics

/-! ### Helper lemmas -/

theorem except_bind_ok {α β : Type} (x : α) (f : α → Except String β) :
    (Except.ok x).bind f = f x := rfl

theorem except_bind_error {α β : Type} (e : String) (f : α → Except String β) :
    (Except.error e).bind f = .error e := rfl

theorem sameOutDim_two_mul (n : Nat) : sameOutDim (n * 2) 2 = n := by
  simp [sameOutDim]; omega

theorem sameOutDim_one (n : Nat) : sameOutDim n 1 = n := by
  simp [sameOutDim]

/-- One stride-2 transposed-convolution block of the generator, on a square
input of spatial size `d` with `cin` channels: the supplied output shape
`[b, d * 2, d * 2, cout]` passes the framework's compatibility check because
`⌈(d * 2) / 2⌉ = d`. -/
theorem conv_t2_stage (b d cout cin kh kw : Nat) :
    conv2dShape [b, d, d, cin] [kh, kw, cout, cin] STRIDE_2
      (some [b, d * 2, d * 2, cout]) true =
    .ok ([b, d * 2, d * 2, cout], .convL true 2 true cout cout) := by
  simp [conv2dShape, bnShape, STRIDE_2, sameOutDim_two_mul]

/-- The stride-1 transposed-convolution block `g_conv5`, which preserves the
spatial size. -/
theorem conv_t1_stage (b d cout cin kh kw : Nat) :
    conv2dShape [b, d, d, cin] [kh, kw, cout, cin] STRIDE_1
      (some [b, d, d, cout]) true =
    .ok ([b, d, d, cout], .convL true 1 true cout cout) := by
  simp [conv2dShape, bnShape, STRIDE_1, sameOutDim_one]

theorem lin_stage (b z k : Nat) :
    linearShape [b, z] [z, k] false = .ok ([b, k], .linearL false z k) := by
  simp [linearShape]

theorem reshape_stage (b d : Nat) :
    reshapeShape [b, d * d * 1024] [b, d, d, 1024] = .ok [b, d, d, 1024] := by
  have hc : [b, d * d * 1024].foldr (· * ·) 1 = [b, d, d, 1024].foldr (· * ·) 1 := by
    simp only [List.foldr]
    ring
  unfold reshapeShape
  rw [if_pos hc]

/-- For every side length `16 * k` the generator builds successfully: the
output shape is `[b, 16 * k, 16 * k, 3]` and the created blocks are exactly
`genLayers z k`. -/
theorem gen_shape_eq (b z k : Nat) :
    generatorShape b z (16 * k) = .ok ([b, 16 * k, 16 * k, 3], genLayers z k) := by
  have h16 : 16 * k / 16 = k := by omega
  have hfin : k * 2 * 2 * 2 * 2 = 16 * k := by ring
  simp only [generatorShape, Nat.mul_mod_right, if_pos, h16, lin_stage, except_bind_ok,
    reshape_stage, conv_t2_stage, conv_t1_stage, genLayers]
  rw [hfin]

/-- One stride-2 regular convolution block of the discriminator: any spatial
size is accepted; only the channel count is constrained. -/
theorem conv_r2_stage (b h w cout cin : Nat) (wbn : Bool) :
    conv2dShape [b, h, w, cin] [5, 5, cin, cout] STRIDE_2 none wbn =
    .ok ([b, sameOutDim h 2, sameOutDim w 2, cout], .convL false 2 wbn cout cout) := by
  cases wbn <;> simp [conv2dShape, bnShape, STRIDE_2]

/-- The discriminator accepts a 3-channel image batch of any spatial size and
produces shape `[n, 1]`, with blocks exactly `discLayers`. -/
theorem disc_shape_eq (n h w : Nat) :
    discriminatorShape [n, h, w, 3] = .ok ([n, 1], discLayers) := by
  simp only [discriminatorShape, conv_r2_stage, except_bind_ok, reduceMeanShape,
    lin_stage, discLayers]

theorem tanh_le_one (x : ℝ) : Real.tanh x ≤ 1 := by
  rw [Real.tanh_eq_sinh_div_cosh, div_le_one (Real.cosh_pos x)]
  have h := Real.cosh_sub_sinh x
  have := Real.exp_pos (-x)
  linarith

theorem neg_one_le_tanh (x : ℝ) : -1 ≤ Real.tanh x := by
  rw [Real.tanh_eq_sinh_div_cosh, le_div_iff₀ (Real.cosh_pos x)]
  have h := Real.cosh_add_sinh x
  have := Real.exp_pos x
  linarith

/-! ### Claim theorems -/

/-- Claim C1: for every side length divisible by 16 and every latent batch of
static shape `batch_size × z_len`, the generator's output tensor has spatial
dimensions equal to the requested side length and 3 channels: the projected
dimension `side / 16` is doubled by each of the four stride-2
transposed-convolution stages. -/
theorem C1_generator_output_shape (b z side : Nat) (h : side % 16 = 0) :
    (generatorShape b z side).map Prod.fst = .ok [b, side, side, 3] := by
  obtain ⟨k, rfl⟩ : ∃ k, side = 16 * k := ⟨side / 16, by omega⟩
  rw [gen_shape_eq]
  rfl

/-- Witness for C1 at side length 32. -/
theorem C1_witness :
    (generatorShape 2 100 32).map Prod.fst = .ok [2, 32, 32, 3] :=
  C1_generator_output_shape 2 100 32 (by decide)

/-- Counterexample to claim C2 as stated: at side length 16 the generator's
layer trace is NOT one linear block, four stride-2 transposed convolutions and
a final REGULAR (non-transposed) stride-1 convolution — the final `g_conv5`
call supplies a `top_shape`, so it too is a transposed convolution. -/
theorem C2_counterexample :
    (generatorShape 1 100 16).toOption.map Prod.snd ≠
      some [LayerDesc.linearL false 100 25600,
            .convL true 2 true 512 512, .convL true 2 true 256 256,
            .convL true 2 true 128 128, .convL true 2 true 64 64,
            .convL false 1 true 3 3] := by decide

/-- Claim C2 (amended): the generator chains exactly one linear block and five
convolution blocks, ALL five of which are transposed convolutions (the four
stride-2 blocks and also the final stride-1 block producing 3 channels, since
every `conv2d` call in `generator` supplies an output shape); in the `conv2d`
block a regular convolution is selected exactly when no output shape is
supplied. -/
theorem C2_generator_five_transposed :
    (∀ b z k, (generatorShape b z (16 * k)).map Prod.snd = .ok (genLayers z k)) ∧
    (∀ bottom shape strides top_shape wbn s t st2 bn2 bl oc,
      conv2dShape bottom shape strides top_shape wbn = .ok (s, .convL t st2 bn2 bl oc) →
      (t = false ↔ top_shape = none)) := by
  constructor
  · intro b z k
    rw [gen_shape_eq]
    rfl
  · intro bottom shape strides top wbn s t st2 bn2 bl oc h
    unfold conv2dShape at h
    split at h
    · exact absurd h (by simp)
    · split at h
      · split at h
        · simp only [Except.ok.injEq, Prod.mk.injEq, LayerDesc.convL.injEq] at h
          simp [← h.2.1]
        · exact absurd h (by simp)
      · split at h
        · simp only [Except.ok.injEq, Prod.mk.injEq, LayerDesc.convL.injEq] at h
          simp [← h.2.1]
        · exact absurd h (by simp)
      · exact absurd h (by simp)

/-- Witness for C2 (amended): the generator trace at side 16, and the
selection of a regular convolution for a concrete `conv2d` call with no
output shape. -/
theorem C2_witness :
    (generatorShape 1 100 16).map Prod.snd = .ok (genLayers 100 1) ∧
    ((false = false) ↔ (none : Option (List Nat)) = none) := by
  constructor
  · have h := C2_generator_five_transposed.1 1 100 1
    simpa using h
  · exact C2_generator_five_transposed.2 [1, 4, 4, 3] [5, 5, 3, 8] STRIDE_2 none false
      [1, 2, 2, 8] false 2 false 8 8 (by rfl)

/-- Claim C3: for every side length not divisible by 16, generator
construction fails with the assertion's descriptive error (raised before any
layer is built); for every side length divisible by 16 the generator itself
raises no error. -/
theorem C3_side_length_assertion (b z side : Nat) :
    (side % 16 ≠ 0 →
      generatorShape b z side = .error "image side length must be divisible by 16") ∧
    ((∃ v, generatorShape b z side = .ok v) ↔ side % 16 = 0) := by
  refine ⟨fun h => ?_, ⟨fun hv => ?_, fun h => ?_⟩⟩
  · unfold generatorShape
    rw [if_neg h]
  · by_contra h
    obtain ⟨v, hv⟩ := hv
    unfold generatorShape at hv
    rw [if_neg h] at hv
    cases hv
  · obtain ⟨k, rfl⟩ : ∃ k, side = 16 * k := ⟨side / 16, by omega⟩
    exact ⟨_, gen_shape_eq b z k⟩

/-- Witness for C3 at side lengths 30 (fails fast) and 16 (succeeds). -/
theorem C3_witness :
    generatorShape 1 100 30 = .error "image side length must be divisible by 16" ∧
    (∃ v, generatorShape 1 100 16 = .ok v) :=
  ⟨(C3_side_length_assertion 1 100 30).1 (by decide),
   (C3_side_length_assertion 1 100 16).2.mpr (by decide)⟩

/-- Claim C4: every element of the generator's output lies in `[-1, 1]`, for
every input latent batch, every parameter assignment, every batch-norm state
and both training and inference modes, because the final block's activation is
the hyperbolic tangent. -/
theorem C4_generator_output_bounded (b z side : Nat) (data : Tensor2)
    (is_train : Option Bool) (P : GenParams) (S : GenState) (n i j c : Nat) :
    -1 ≤ (generatorValue b z side data is_train P S).1 n i j c ∧
    (generatorValue b z side data is_train P S).1 n i j c ≤ 1 :=
  ⟨neg_one_le_tanh _, tanh_le_one _⟩

/-- Claim C5: the discriminator applied to a batch of `n` images (any spatial
size, 3 channels) returns `n` scalar logits, of shape `[n, 1]`; its blocks are
four stride-2 convolutions raising the channel count 3 → 128 → 256 → 512 →
1024 with the first block skipping batch norm, spatial average pooling, and a
linear block of weight shape `[1024, 1]` with no batch norm. -/
theorem C5_discriminator_batch_logits (n h w : Nat) :
    discriminatorShape [n, h, w, 3] = .ok ([n, 1], discLayers) :=
  disc_shape_eq n h w

/-- Claim C6: `_bn` selects its statistics by the training flag (a missing
flag meaning inference): in training mode it normalizes with the per-channel
batch mean/variance over all non-channel axes and updates the exponential
moving averages with decay 0.9; in inference mode it normalizes with the
stored moving averages and leaves them unchanged; both modes scale and shift
by the learned per-channel parameters with epsilon `1e-4`. -/
theorem C6_bn_statistics_selection (b h w : Nat) (x : Tensor4) (p : BNParams)
    (st : BNState) :
    bnValue b h w x p st none = bnValue b h w x p st (some false) ∧
    (bnValue b h w x p st (some false)).2 = st ∧
    (bnValue b h w x p st (some false)).1 =
      batchNormalization x st.movMu st.movVar p.beta p.gamma (1 / 10000) ∧
    (bnValue b h w x p st (some true)).1 =
      batchNormalization x (batchMean b h w x) (batchVar b h w x) p.beta p.gamma
        (1 / 10000) ∧
    (∀ c, (bnValue b h w x p st (some true)).2.movMu c =
        9 / 10 * st.movMu c + (1 - 9 / 10) * batchMean b h w x c ∧
      (bnValue b h w x p st (some true)).2.movVar c =
        9 / 10 * st.movVar c + (1 - 9 / 10) * batchVar b h w x c) :=
  ⟨rfl, rfl, rfl, rfl, fun _ => ⟨rfl, rfl⟩⟩

/-- Claim C7: for every side length divisible by 16, feeding the generator's
output batch into the discriminator is well-formed and produces a batch of
logits of shape `[b, 1]` with no shape error. -/
theorem C7_round_trip (b z side : Nat) (h : side % 16 = 0) :
    roundTripShape b z side = .ok [b, 1] := by
  obtain ⟨k, rfl⟩ : ∃ k, side = 16 * k := ⟨side / 16, by omega⟩
  simp only [roundTripShape, gen_shape_eq, except_bind_ok, disc_shape_eq]

/-- Witness for C7 at side length 16. -/
theorem C7_witness : roundTripShape 1 100 16 = .ok [1, 1] :=
  C7_round_trip 1 100 16 (by decide)

/-- Claim C8: in the convolution block the bias length is taken from the
output-channel axis of the weight tensor — `shape[-1]` for a regular
convolution, `shape[-2]` for a transposed one — so in both cases the bias
length equals the channel count of the block's output. -/
theorem C8_bias_output_channel_axis
    (bottom shape strides : List Nat) (top_shape : Option (List Nat)) (wbn : Bool)
    (s : List Nat) (t bn2 : Bool) (st2 bl oc : Nat)
    (h : conv2dShape bottom shape strides top_shape wbn = .ok (s, .convL t st2 bn2 bl oc)) :
    s.getLastD 0 = bl ∧
    (top_shape = none → shape[3]? = some bl) ∧
    (top_shape ≠ none → shape[2]? = some bl) := by
  unfold conv2dShape at h
  split at h
  · exact absurd h (by simp)
  · split at h
    · rename_i heq
      split at h
      · rename_i hcond
        simp only [Except.ok.injEq, Prod.mk.injEq, LayerDesc.convL.injEq] at h
        obtain ⟨hs, _, _, _, hbl, _⟩ := h
        subst hs hbl
        refine ⟨by simpa [List.getLastD] using hcond.2.1, by simp, by simp⟩
      · exact absurd h (by simp)
    · split at h
      · simp only [Except.ok.injEq, Prod.mk.injEq, LayerDesc.convL.injEq] at h
        obtain ⟨hs, _, _, _, hbl, _⟩ := h
        subst hs hbl
        exact ⟨by simp [List.getLastD], by simp, by simp⟩
      · exact absurd h (by simp)
    · exact absurd h (by simp)

/-- Witness for C8: a concrete regular convolution block with weight shape
`[5, 5, 3, 8]`, whose bias length 8 is `shape[-1]` and is the output channel
count. -/
theorem C8_witness :
    [1, 2, 2, 8].getLastD 0 = 8 ∧
    ((none : Option (List Nat)) = none → [5, 5, 3, 8][3]? = some 8) ∧
    ((none : Option (List Nat)) ≠ none → [5, 5, 3, 8][2]? = some 8) :=
  C8_bias_output_channel_axis [1, 4, 4, 3] [5, 5, 3, 8] STRIDE_2 none false
    [1, 2, 2, 8] false false 2 8 8 (by rfl)

/-- Claim C9: in inference mode the generator and the discriminator are
deterministic: a forward pass depends only on the input, the parameters and
the stored moving statistics, leaves the moving statistics unchanged, and a
repeated call therefore produces an identical output. -/
theorem C9_inference_deterministic
    (b z side : Nat) (data : Tensor2) (P : GenParams) (S : GenState)
    (b2 h2 w2 : Nat) (data2 : Tensor4) (P2 : DiscParams) (S2 : DiscState) :
    (generatorValue b z side data (some false) P S).2 = S ∧
    (generatorValue b z side data (some false) P
        (generatorValue b z side data (some false) P S).2).1 =
      (generatorValue b z side data (some false) P S).1 ∧
    (discriminatorValue b2 h2 w2 data2 (some false) P2 S2).2 = S2 ∧
    (discriminatorValue b2 h2 w2 data2 (some false) P2
        (discriminatorValue b2 h2 w2 data2 (some false) P2 S2).2).1 =
      (discriminatorValue b2 h2 w2 data2 (some false) P2 S2).1 :=
  ⟨rfl, rfl, rfl, rfl⟩

/-- Claim C10: the discriminator's first convolution hard-codes the weight
shape `[5, 5, 3, 128]`, so for every input batch whose channel dimension is
not 3, construction fails with a shape mismatch. -/
theorem C10_discriminator_needs_three_channels (n h w c : Nat) (hc : c ≠ 3) :
    discriminatorShape [n, h, w, c] =
      .error "conv2d: input channels incompatible with filter shape" := by
  have h1 : conv2dShape [n, h, w, c] [5, 5, 3, 128] STRIDE_2 none false =
      .error "conv2d: input channels incompatible with filter shape" := by
    simp [conv2dShape, STRIDE_2, hc]
  simp only [discriminatorShape, h1, except_bind_error]

/-- Witness for C10 at a single-channel input batch. -/
theorem C10_witness :
    discriminatorShape [1, 32, 32, 1] =
      .error "conv2d: input channels incompatible with filter shape" :=
  C10_discriminator_needs_three_channels 1 32 32 1 (by decide)

end DCGAN
